import Mathlib

/-!
# go-drupal: shallow embedding and verification

Shallow embedding of the `drupal` Go package (phayes/go-drupal): the drush
stderr-line classifier (`NewDrushMessage`), the message-set predicates
(`HasErrors` …), the `Run` result assembly, the `Settings` typed accessors,
and `Database.Open`'s data-source string construction.

Go strings are modelled as Lean `String`; the Go standard-library helpers
`strings.HasSuffix`, `strings.TrimSuffix` and `strings.TrimSpace` are
embedded below over the character list of the string.
-/

namespace GoDrupal

/-- Model of Go `unicode.IsSpace` on the characters relevant here
(ASCII whitespace plus Latin-1 NEL and NBSP, exactly the Latin-1 cases of
Go's `unicode.IsSpace`). -/
def goIsSpace (c : Char) : Bool :=
  c == ' ' || c == '\t' || c == '\n' || c == Char.ofNat 11 || c == Char.ofNat 12 ||
    c == '\r' || c == Char.ofNat 0x85 || c == Char.ofNat 0xA0

/-- Model of Go `strings.HasSuffix s suffix`. -/
def goHasSuffix (s suffix : String) : Bool :=
  suffix.data.isSuffixOf s.data

/-- Model of Go `strings.TrimSuffix s suffix`: drops the trailing `suffix`
when present, otherwise returns `s` unchanged. -/
def goTrimSuffix (s suffix : String) : String :=
  if goHasSuffix s suffix then
    String.mk (s.data.take (s.data.length - suffix.data.length))
  else s

/-- Trim leading and trailing whitespace characters from a character list. -/
def goTrimSpaceList (l : List Char) : List Char :=
  ((l.dropWhile goIsSpace).reverse.dropWhile goIsSpace).reverse

/-- Model of Go `strings.TrimSpace`. -/
def goTrimSpace (s : String) : String :=
  String.mk (goTrimSpaceList s.data)

/-- `DrushMessageType` is a Go named string type (`type DrushMessageType string`);
its `String()` method is the identity, so it is modelled as `String`. -/
abbrev DrushMessageType := String

/-- `DrushMessageError DrushMessageType = "[error]"` (drush.go). -/
def DrushMessageError : DrushMessageType := "[error]"

/-- `DrushMessageWarning DrushMessageType = "[warning]"` (drush.go). -/
def DrushMessageWarning : DrushMessageType := "[warning]"

/-- `DrushMessageNotice DrushMessageType = "[notice]"` (drush.go). -/
def DrushMessageNotice : DrushMessageType := "[notice]"

/-- `DrushMessageOK DrushMessageType = "[ok]"` (drush.go). -/
def DrushMessageOK : DrushMessageType := "[ok]"

/-- `DrushMessageUnknown DrushMessageType = "[unknown]"` (drush.go). -/
def DrushMessageUnknown : DrushMessageType := "[unknown]"

set_option linter.dupNamespace false

/-- `DrushMessage` struct: one classified stderr line. -/
structure DrushMessage where
  Message : String
  Type' : DrushMessageType
  deriving DecidableEq, Repr

/-- Embedding of `NewDrushMessage` (drush.go, final `DrushMessageSet`
revision, lines 434–452): suffix tests in order `[error]`, `[warning]`,
`[notice]`, `[ok]`, then `TrimSuffix` with `mestype.String()` and
`TrimSpace`.  Note the source trims the *assigned type's* marker string,
which for a `[notice]` line is `"[warning]"`. -/
def NewDrushMessage (messageline : String) : DrushMessage :=
  let mestype : DrushMessageType :=
    if goHasSuffix messageline DrushMessageError then DrushMessageError
    else if goHasSuffix messageline DrushMessageWarning then DrushMessageWarning
    else if goHasSuffix messageline DrushMessageNotice then DrushMessageWarning
    else if goHasSuffix messageline DrushMessageOK then DrushMessageOK
    else DrushMessageUnknown
  let trimmed := goTrimSuffix messageline mestype
  { Message := goTrimSpace trimmed, Type' := mestype }

example : NewDrushMessage " all went fine [ok]" =
    { Message := "all went fine", Type' := DrushMessageOK } := by decide

example : NewDrushMessage "bad thing [error]" =
    { Message := "bad thing", Type' := DrushMessageError } := by decide

example : NewDrushMessage "watch out [warning]" =
    { Message := "watch out", Type' := DrushMessageWarning } := by decide

example : NewDrushMessage "note this [notice]" =
    { Message := "note this [notice]", Type' := DrushMessageWarning } := by decide

example : NewDrushMessage "plain line" =
    { Message := "plain line", Type' := DrushMessageUnknown } := by decide

example : NewDrushMessage "foo [unknown]" =
    { Message := "foo", Type' := DrushMessageUnknown } := by decide

/-- `DrushMessageSet` (`type DrushMessageSet []DrushMessage`).  A Go nil
slice and an empty slice both behave as the empty list in every method
below (the `des == nil` guards return the same result the loop over an
empty slice does), so both are modelled by `[]`. -/
abbrev DrushMessageSet := List DrushMessage

namespace DrushMessageSet

/-- `HasErrors`: true iff some element has type `[error]` (loop with early
return in the source). -/
def HasErrors (des : DrushMessageSet) : Bool :=
  des.any fun m => m.Type' == DrushMessageError

/-- `HasWarnings`: true iff some element has type `[warning]`. -/
def HasWarnings (des : DrushMessageSet) : Bool :=
  des.any fun m => m.Type' == DrushMessageWarning

/-- `HasNotices`: true iff some element has type `[notice]`. -/
def HasNotices (des : DrushMessageSet) : Bool :=
  des.any fun m => m.Type' == DrushMessageNotice

/-- `HasUnknowns`: true iff some element has type `[unknown]`. -/
def HasUnknowns (des : DrushMessageSet) : Bool :=
  des.any fun m => m.Type' == DrushMessageUnknown

end DrushMessageSet

/-! ## The Run method

`(*Drush).Run` (final revision, drush.go lines 361–416) interacts with an
external process.  The interaction is abstracted into an `ExecBehavior`
record: what each fallible step would report and what the process would
write to its streams.  `Run` is then a pure function of that record,
mirroring the source's control flow; the stderr-scanning goroutine is
modelled by the sequential left-to-right classification of the stderr
lines (the `sync.WaitGroup` barrier guarantees it has finished before the
result is assembled). -/

/-- Abstracted behaviour of the spawned process and its pipes.  A `some e`
in an error field means that step fails with error text `e`. -/
structure ExecBehavior where
  stderrPipeErr : Option String
  stdoutPipeErr : Option String
  startErr : Option String
  stderrLines : List String
  stdoutData : String
  waitErr : Option String

/-- The stderr goroutine's loop: classify each line, routing it into
`messages` when its type is `[ok]` and into `errset` otherwise
(drush.go lines 384–395).  Returns `(messages, errset)`. -/
def classifyStep (acc : List DrushMessage × DrushMessageSet) (line : String) :
    List DrushMessage × DrushMessageSet :=
  let message := NewDrushMessage line
  if message.Type' == DrushMessageOK then (acc.1 ++ [message], acc.2)
  else (acc.1, acc.2 ++ [message])

/-- The whole scanner loop, starting from the two empty accumulators. -/
def classifyStderr (lines : List String) : List DrushMessage × DrushMessageSet :=
  lines.foldl classifyStep ([], [])

/-- The error message set accumulated by `Run`: the non-`[ok]` classified
stderr lines, followed by one synthetic message classified from
`err.Error()` when `cmd.Wait` reports a non-zero exit (drush.go lines
405–408). -/
def runErrset (env : ExecBehavior) : DrushMessageSet :=
  (classifyStderr env.stderrLines).2 ++
    match env.waitErr with
    | some e => [NewDrushMessage e]
    | none => []

/-- The successful (`started`) outcome of `Run`: captured stdout, the
`[ok]` messages, and the surfaced error value (`errs`), which in this
revision is the message set only when `errset.HasErrors()`
(drush.go lines 411–413), else Go `nil`, modelled `none`. -/
structure RunOutcome where
  output : String
  messages : List DrushMessage
  errs : Option DrushMessageSet
  deriving DecidableEq, Repr

/-- Embedding of `(*Drush).Run` (final revision, drush.go lines 361–416).
A transport failure (stderr pipe, stdout pipe, or start) returns the plain
error text with no message set (`Except.error`); otherwise the result is
assembled from the classified stderr lines, the wait error, and stdout. -/
def Run (env : ExecBehavior) : Except String RunOutcome :=
  match env.stderrPipeErr with
  | some e => .error e
  | none =>
  match env.stdoutPipeErr with
  | some e => .error e
  | none =>
  match env.startErr with
  | some e => .error e
  | none =>
    let pair := classifyStderr env.stderrLines
    let errset := pair.2 ++
      match env.waitErr with
      | some e => [NewDrushMessage e]
      | none => []
    .ok { output := env.stdoutData
          messages := pair.1
          errs := if DrushMessageSet.HasErrors errset then some errset else none }

/-- The surfacing decision of the earlier `DrushMessages` revision of `Run`
(drush.go lines 199–201): `errs = errset` when `errset != nil &&
len(errset) > 0`; `errset` is initialised non-nil, so this is a pure
length test. -/
def runSurfacedErrsLen (errset : List DrushMessage) : Option (List DrushMessage) :=
  if errset.length > 0 then some errset else none

/-! ## Settings (settings.go)

`type Settings map[string]interface{}`.  The dynamic (`interface{}`)
values a Settings entry can hold are modelled by `GoValue`, one
constructor per dynamic type the accessors test for, plus `vOther` for any
other dynamic type (e.g. `map[string]interface{}`, `nil`).  A Go type
assertion `val.(T)` succeeds exactly on the matching constructor.
`float64` payloads are modelled as rationals, which is faithful here since
the accessors only move them around. -/

inductive GoValue where
  /-- dynamic type `string` -/
  | vString (s : String)
  /-- dynamic type `int` -/
  | vInt (n : Int)
  /-- dynamic type `bool` -/
  | vBool (b : Bool)
  /-- dynamic type `float64` -/
  | vFloat (q : Rat)
  /-- dynamic type `[]interface{}` -/
  | vSlice (xs : List GoValue)
  /-- dynamic type `Settings` (the named map type itself) -/
  | vSettings (m : List (String × GoValue))
  /-- any other dynamic type -/
  | vOther
  deriving Repr

/-- `Settings`: the map is modelled as an association list with distinct
keys; `s[key]`'s comma-ok lookup is `getVal`. -/
abbrev Settings := List (String × GoValue)

/-- The Go map read `val, ok := s[key]`. -/
def getVal (s : Settings) (key : String) : Option GoValue :=
  (s.find? fun p => p.1 == key).map Prod.snd

namespace Settings

/-- `HasValue` (settings.go): comma-ok presence test. -/
def HasValue (s : Settings) (key : String) : Bool :=
  (getVal s key).isSome

/-- `GetString` (settings.go): `""` when absent or not a `string`. -/
def GetString (s : Settings) (key : String) : String :=
  match getVal s key with
  | some (.vString strval) => strval
  | _ => ""

/-- `GetInt` (settings.go): `0` when absent or not an `int`. -/
def GetInt (s : Settings) (key : String) : Int :=
  match getVal s key with
  | some (.vInt intval) => intval
  | _ => 0

/-- `GetBool` (settings.go): `false` when absent or not a `bool`. -/
def GetBool (s : Settings) (key : String) : Bool :=
  match getVal s key with
  | some (.vBool boolval) => boolval
  | _ => false

/-- `GetFloat` (settings.go): `0` when absent or not a `float64`. -/
def GetFloat (s : Settings) (key : String) : Rat :=
  match getVal s key with
  | some (.vFloat floatval) => floatval
  | _ => 0

/-- `GetAssocArray` (settings.go): Go returns nil (`none`) when absent or
when the checked assertion `val.(Settings)` fails. -/
def GetAssocArray (s : Settings) (key : String) : Option Settings :=
  match getVal s key with
  | some (.vSettings settingsval) => some settingsval
  | _ => none

/-- `GetArray` (settings.go lines 79–97): nil (`ok []`) when the key is
absent; when present, the source performs the *unchecked* type assertion
`arrayval := val.([]interface{})`, which panics (`error`) unless the
dynamic type is `[]interface{}`; on a slice it keeps the `string`
elements. -/
def GetArray (s : Settings) (key : String) : Except String (List String) :=
  match getVal s key with
  | none => .ok []
  | some (.vSlice arrayval) =>
      .ok (arrayval.filterMap fun subval =>
        match subval with
        | .vString strval => some strval
        | _ => none)
  | some _ => .error "interface conversion: interface \x7b\x7d is not []interface \x7b\x7d"

end Settings

/-- The Settings value decoded by `encoding/json` from
`{"hash_salt": "X", "list": ["a","b"]}` (JSON strings decode to `string`,
JSON arrays to `[]interface{}`). -/
def exampleSettings : Settings :=
  [("hash_salt", .vString "X"), ("list", .vSlice [.vString "a", .vString "b"])]

/-- A Settings value (decodable from `{"list": "oops"}`) whose `list`
entry is present with dynamic type `string` rather than
`[]interface{}`. -/
def wrongTypedSettings : Settings := [("list", .vString "oops")]

/-! ## Database (site source file) -/

/-- `Database` struct: connection details decoded from JSON. -/
structure Database where
  Database : String
  Username : String
  Password : String
  Prefix : String
  Host : String
  Port : String
  Namespace : String
  Driver : String
  deriving DecidableEq, Repr

/-- Embedding of `(*Database).Open`: builds the data-source string by the
source's sequence of conditional appends and calls `sql.Open(db.Driver,
connection)`; `sql.Open` is modelled as returning the
`(driver, dataSource)` pair it is invoked with. -/
def Database.Open (db : GoDrupal.Database) : String × String :=
  let connection := db.Username
  let connection := if db.Password != "" then connection ++ ":" ++ db.Password else connection
  let connection := connection ++ "@" ++ db.Host
  let connection := if db.Port != "" then connection ++ ":" ++ db.Port else connection
  let connection := connection ++ "/" ++ db.Database
  (db.Driver, connection)

/-! ## Helper lemmas -/

/-- The scanner loop from arbitrary accumulators: it appends the `[ok]`
and non-`[ok]` classified lines, in input order, to the respective
accumulator. -/
lemma foldl_classifyStep (lines : List String) (ok err : List DrushMessage) :
    lines.foldl classifyStep (ok, err) =
      (ok ++ (lines.map NewDrushMessage).filter (fun m => m.Type' == DrushMessageOK),
       err ++ (lines.map NewDrushMessage).filter (fun m => !(m.Type' == DrushMessageOK))) := by
  induction lines generalizing ok err with
  | nil => simp
  | cons l ls ih =>
    simp only [List.foldl_cons, List.map_cons, List.filter_cons, classifyStep]
    by_cases h : (NewDrushMessage l).Type' == DrushMessageOK
    · simp [h, ih]
    · simp only [h] at *
      simp [ih, h]

/-- `classifyStderr` splits the classified stderr lines into the `[ok]`
ones and the rest, preserving order. -/
lemma classifyStderr_spec (lines : List String) :
    classifyStderr lines =
      ((lines.map NewDrushMessage).filter (fun m => m.Type' == DrushMessageOK),
       (lines.map NewDrushMessage).filter (fun m => !(m.Type' == DrushMessageOK))) := by
  simpa using foldl_classifyStep lines [] []

/-- `HasErrors` is the existence of an `[error]`-typed element. -/
lemma hasErrors_iff (des : DrushMessageSet) :
    DrushMessageSet.HasErrors des = true ↔ ∃ m ∈ des, m.Type' = DrushMessageError := by
  simp [DrushMessageSet.HasErrors, List.any_eq_true]

/-- `NewDrushMessage` assigns one of the four types `[error]`,
`[warning]`, `[ok]`, `[unknown]` — never `[notice]` (the notice branch
assigns `DrushMessageWarning`). -/
lemma newDrushMessage_type (line : String) :
    (NewDrushMessage line).Type' = DrushMessageError ∨
    (NewDrushMessage line).Type' = DrushMessageWarning ∨
    (NewDrushMessage line).Type' = DrushMessageOK ∨
    (NewDrushMessage line).Type' = DrushMessageUnknown := by
  unfold NewDrushMessage
  split_ifs <;> simp

/-! ## Claim theorems -/

/-- C1: the claim says every line ending in a recognized marker is stored
with the marker and surrounding whitespace removed.  The code violates
this for `[notice]` lines: `NewDrushMessage` assigns
`mestype = DrushMessageWarning` and then trims the suffix
`mestype.String() = "[warning]"`, a no-op, so the `[notice]` marker stays
in the stored text.  This theorem evaluates the classifier at the failing
input (and, for contrast, at an `[error]` line where the marker is
stripped as claimed). -/
theorem C1_notice_marker_retained :
    NewDrushMessage "Something happened [notice]" =
      { Message := "Something happened [notice]", Type' := DrushMessageWarning } ∧
    NewDrushMessage "Something happened [error]" =
      { Message := "Something happened", Type' := DrushMessageError } := by
  exact ⟨by decide, by decide⟩

/-- C4 counterexample: the claim says a line with no recognized marker is
stored with only surrounding whitespace trimmed, otherwise verbatim.  The
line `"foo [unknown]"` ends in no recognized marker (the four recognized
markers are refuted below), yet its stored text is `"foo"`, not the
trimmed input `"foo [unknown]"`: the code's final
`TrimSuffix(messageline, mestype.String())` strips the `"[unknown]"`
sentinel. -/
theorem C4_counterexample :
    goHasSuffix "foo [unknown]" DrushMessageError = false ∧
    goHasSuffix "foo [unknown]" DrushMessageWarning = false ∧
    goHasSuffix "foo [unknown]" DrushMessageNotice = false ∧
    goHasSuffix "foo [unknown]" DrushMessageOK = false ∧
    (NewDrushMessage "foo [unknown]").Type' = DrushMessageUnknown ∧
    (NewDrushMessage "foo [unknown]").Message ≠ goTrimSpace "foo [unknown]" := by
  decide

/-- C4 (amended): a line ending in none of the four recognized markers is
classified `[unknown]`, and its stored text is the input with a trailing
literal `"[unknown]"` (when present) removed and then whitespace trimmed;
in particular, when the line does not end in `"[unknown]"`, the stored
text is exactly the whitespace-trimmed input. -/
theorem C4_unknown_line (line : String)
    (h1 : goHasSuffix line DrushMessageError = false)
    (h2 : goHasSuffix line DrushMessageWarning = false)
    (h3 : goHasSuffix line DrushMessageNotice = false)
    (h4 : goHasSuffix line DrushMessageOK = false) :
    (NewDrushMessage line).Type' = DrushMessageUnknown ∧
    (NewDrushMessage line).Message = goTrimSpace (goTrimSuffix line DrushMessageUnknown) ∧
    (goHasSuffix line DrushMessageUnknown = false →
      (NewDrushMessage line).Message = goTrimSpace line) := by
  refine ⟨?_, ?_, ?_⟩
  · simp [NewDrushMessage, h1, h2, h3, h4]
  · simp [NewDrushMessage, h1, h2, h3, h4]
  · intro h5
    simp [NewDrushMessage, h1, h2, h3, h4, goTrimSuffix, h5]

/-- C4 witness: the amended statement at the concrete line `"  hello  "`,
whose stored text is the trimmed input `"hello"`. -/
theorem C4_unknown_line_witness :
    goHasSuffix "  hello  " DrushMessageError = false ∧
    goHasSuffix "  hello  " DrushMessageWarning = false ∧
    goHasSuffix "  hello  " DrushMessageNotice = false ∧
    goHasSuffix "  hello  " DrushMessageOK = false ∧
    ((NewDrushMessage "  hello  ").Type' = DrushMessageUnknown ∧
     (NewDrushMessage "  hello  ").Message =
       goTrimSpace (goTrimSuffix "  hello  " DrushMessageUnknown) ∧
     (goHasSuffix "  hello  " DrushMessageUnknown = false →
       (NewDrushMessage "  hello  ").Message = goTrimSpace "  hello  ")) :=
  ⟨by decide, by decide, by decide, by decide,
    C4_unknown_line "  hello  " (by decide) (by decide) (by decide) (by decide)⟩

/-- C5: `NewDrushMessage` is a total, deterministic Lean function (it is a
computable `def`, so it returns a `DrushMessage` for every input string
and cannot fail); on the empty string it yields `[unknown]` severity with
empty text, and on every input its assigned type is one of the four
values actually produced by the classifier. -/
theorem C5_total_classifier :
    NewDrushMessage "" = { Message := "", Type' := DrushMessageUnknown } ∧
    ∀ s : String,
      (NewDrushMessage s).Type' = DrushMessageError ∨
      (NewDrushMessage s).Type' = DrushMessageWarning ∨
      (NewDrushMessage s).Type' = DrushMessageOK ∨
      (NewDrushMessage s).Type' = DrushMessageUnknown :=
  ⟨by decide, newDrushMessage_type⟩

/-- C6: the claim says every typed accessor never fails for any Settings
mapping and key.  The positive examples of the claim hold (first three
conjuncts, on the Settings decoded from
`{"hash_salt": "X", "list": ["a","b"]}`), but `GetArray` performs the
unchecked type assertion `val.([]interface{})` and panics (modelled
`Except.error`) when the key is present with a non-slice dynamic type,
as on `{"list": "oops"}` (last conjunct) — so "never fails" is false and
the code contradicts the documented contract. -/
theorem C6_getarray_panics :
    Settings.GetString exampleSettings "hash_salt" = "X" ∧
    Settings.GetArray exampleSettings "list" = .ok ["a", "b"] ∧
    Settings.GetString exampleSettings "missing" = "" ∧
    Settings.GetInt exampleSettings "missing" = 0 ∧
    Settings.GetBool exampleSettings "missing" = false ∧
    Settings.GetFloat exampleSettings "missing" = 0 ∧
    Settings.GetAssocArray exampleSettings "missing" = none ∧
    (∃ e, Settings.GetArray wrongTypedSettings "list" = .error e) := by
  exact ⟨rfl, rfl, rfl, rfl, rfl, rfl, rfl, ⟨_, rfl⟩⟩

/-- C7: on the empty set (which also models a Go nil set) all four `Has*`
predicates are false, and on any set each predicate is true iff some
contained message has exactly the corresponding type. -/
theorem C7_has_predicates (des : DrushMessageSet) :
    (DrushMessageSet.HasErrors [] = false ∧ DrushMessageSet.HasWarnings [] = false ∧
     DrushMessageSet.HasNotices [] = false ∧ DrushMessageSet.HasUnknowns [] = false) ∧
    (DrushMessageSet.HasErrors des = true ↔ ∃ m ∈ des, m.Type' = DrushMessageError) ∧
    (DrushMessageSet.HasWarnings des = true ↔ ∃ m ∈ des, m.Type' = DrushMessageWarning) ∧
    (DrushMessageSet.HasNotices des = true ↔ ∃ m ∈ des, m.Type' = DrushMessageNotice) ∧
    (DrushMessageSet.HasUnknowns des = true ↔ ∃ m ∈ des, m.Type' = DrushMessageUnknown) := by
  refine ⟨⟨rfl, rfl, rfl, rfl⟩, ?_, ?_, ?_, ?_⟩ <;>
    simp [DrushMessageSet.HasErrors, DrushMessageSet.HasWarnings,
      DrushMessageSet.HasNotices, DrushMessageSet.HasUnknowns, List.any_eq_true]

/-- C8: the classifier never assigns the `[notice]` type (a `[notice]`
line is assigned `DrushMessageWarning`), so `HasNotices` is false on
every message set built from classifier output. -/
theorem C8_never_notice :
    (∀ line : String, (NewDrushMessage line).Type' ≠ DrushMessageNotice) ∧
    (∀ lines : List String,
      DrushMessageSet.HasNotices (lines.map NewDrushMessage) = false) := by
  have h : ∀ line : String, (NewDrushMessage line).Type' ≠ DrushMessageNotice := by
    intro line
    rcases newDrushMessage_type line with h | h | h | h <;> rw [h] <;> decide
  refine ⟨h, fun lines => ?_⟩
  rw [DrushMessageSet.HasNotices, List.any_eq_false]
  intro m hm
  rcases List.mem_map.mp hm with ⟨line, _, rfl⟩
  simpa using h line

/-- An execution behaviour whose only stderr line is a warning: the
process runs cleanly otherwise. -/
def warnOnlyEnv : ExecBehavior :=
  { stderrPipeErr := none, stdoutPipeErr := none, startErr := none,
    stderrLines := ["careful [warning]"], stdoutData := "", waitErr := none }

/-- An execution behaviour whose only stderr line is an error. -/
def errLineEnv : ExecBehavior :=
  { stderrPipeErr := none, stdoutPipeErr := none, startErr := none,
    stderrLines := ["boom [error]"], stdoutData := "", waitErr := none }

/-- An execution behaviour whose stderr pipe cannot be obtained. -/
def pipeFailEnv : ExecBehavior :=
  { stderrPipeErr := some "pipe busted", stdoutPipeErr := none, startErr := none,
    stderrLines := [], stdoutData := "", waitErr := none }

/-- An execution behaviour that starts, prints one error line, and exits
non-zero. -/
def exitFailEnv : ExecBehavior :=
  { stderrPipeErr := none, stdoutPipeErr := none, startErr := none,
    stderrLines := ["bad [error]"], stdoutData := "", waitErr := some "exit status 1" }

/-- A started execution behaviour with a mixed stderr stream and exit 0. -/
def mixedEnv : ExecBehavior :=
  { stderrPipeErr := none, stdoutPipeErr := none, startErr := none,
    stderrLines := ["cache cleared [ok]", "watch out [warning]", "stray line"],
    stdoutData := "out", waitErr := none }

/-- C2 counterexample: the claim says `Run` surfaces a non-nil error value
exactly when the accumulated error set is non-empty, so that a
warnings-only set still surfaces.  On a run whose stderr holds one
`[warning]` line, the accumulated set has length 1, yet the final
revision of `Run` (surfacing only via `errset.HasErrors()`) returns
`errs = nil` (`none`). -/
theorem C2_counterexample :
    0 < (runErrset warnOnlyEnv).length ∧
    Run warnOnlyEnv = .ok { output := "", messages := [], errs := none } :=
  ⟨by decide, rfl⟩

/-- C2 (amended): in the final revision, a started `Run` surfaces a
non-nil error value exactly when the accumulated error message set
contains at least one `[error]`-typed message (`errset.HasErrors()`), and
when it does, the surfaced value is that whole set; the surface-on-
`length > 0` rule of the claim is the earlier `DrushMessages` revision's
(`runSurfacedErrsLen`). -/
theorem C2_errs_iff_has_error (env : ExecBehavior)
    (h1 : env.stderrPipeErr = none) (h2 : env.stdoutPipeErr = none)
    (h3 : env.startErr = none) :
    ∃ r, Run env = .ok r ∧
      (r.errs ≠ none ↔ ∃ m ∈ runErrset env, m.Type' = DrushMessageError) ∧
      (∀ s, r.errs = some s → s = runErrset env) := by
  have hrun : Run env = .ok
      { output := env.stdoutData
        messages := (classifyStderr env.stderrLines).1
        errs := if DrushMessageSet.HasErrors (runErrset env) then some (runErrset env)
          else none } := by
    simp [Run, h1, h2, h3, runErrset]
  refine ⟨_, hrun, ?_, ?_⟩
  · constructor
    · intro hne
      by_cases h : DrushMessageSet.HasErrors (runErrset env)
      · exact (hasErrors_iff _).mp h
      · simp [h] at hne
    · intro hex
      have h := (hasErrors_iff _).mpr hex
      simp [h]
  · intro s hs
    by_cases h : DrushMessageSet.HasErrors (runErrset env)
    · simp [h] at hs
      exact hs.symm
    · simp [h] at hs

/-- C2 witness: the amended statement at a run with one `[error]` stderr
line. -/
theorem C2_errs_iff_has_error_witness :
    errLineEnv.stderrPipeErr = none ∧ errLineEnv.stdoutPipeErr = none ∧
    errLineEnv.startErr = none ∧
    (∃ r, Run errLineEnv = .ok r ∧
      (r.errs ≠ none ↔ ∃ m ∈ runErrset errLineEnv, m.Type' = DrushMessageError) ∧
      (∀ s, r.errs = some s → s = runErrset errLineEnv)) :=
  ⟨rfl, rfl, rfl, C2_errs_iff_has_error errLineEnv rfl rfl rfl⟩

/-- C3: a failure to obtain the stderr or stdout pipe, or to start the
process, makes `Run` return the plain error (an `Except.error` carrying
only the error text, no message set); once started, `Run` always produces
a result, and a non-zero exit (`waitErr`) contributes exactly one
synthetic message — classified from the process-level error text —
appended after all classified stderr lines in the error message set. -/
theorem C3_transport_vs_exit (env : ExecBehavior) :
    (∀ e, env.stderrPipeErr = some e → Run env = .error e) ∧
    (∀ e, env.stderrPipeErr = none → env.stdoutPipeErr = some e → Run env = .error e) ∧
    (∀ e, env.stderrPipeErr = none → env.stdoutPipeErr = none → env.startErr = some e →
      Run env = .error e) ∧
    (env.stderrPipeErr = none → env.stdoutPipeErr = none → env.startErr = none →
      ∃ r, Run env = .ok r) ∧
    (∀ e, env.waitErr = some e →
      runErrset env =
        (env.stderrLines.map NewDrushMessage).filter
          (fun m => !(m.Type' == DrushMessageOK)) ++ [NewDrushMessage e]) := by
  refine ⟨?_, ?_, ?_, ?_, ?_⟩
  · intro e he
    simp [Run, he]
  · intro e h1 h2
    simp [Run, h1, h2]
  · intro e h1 h2 h3
    simp [Run, h1, h2, h3]
  · intro h1 h2 h3
    refine ⟨{ output := env.stdoutData
              messages := (classifyStderr env.stderrLines).1
              errs := if DrushMessageSet.HasErrors (runErrset env) then some (runErrset env)
                else none }, ?_⟩
    simp [Run, h1, h2, h3, runErrset]
  · intro e he
    simp [runErrset, he, classifyStderr_spec]

/-- C3 witness: transport failure at a concrete pipe error, and the
synthetic-message shape at a concrete non-zero exit. -/
theorem C3_transport_vs_exit_witness :
    pipeFailEnv.stderrPipeErr = some "pipe busted" ∧
    Run pipeFailEnv = .error "pipe busted" ∧
    exitFailEnv.waitErr = some "exit status 1" ∧
    runErrset exitFailEnv =
      (exitFailEnv.stderrLines.map NewDrushMessage).filter
        (fun m => !(m.Type' == DrushMessageOK)) ++ [NewDrushMessage "exit status 1"] :=
  ⟨rfl, (C3_transport_vs_exit pipeFailEnv).1 "pipe busted" rfl, rfl,
    (C3_transport_vs_exit exitFailEnv).2.2.2.2 "exit status 1" rfl⟩

/-- C9: on a started, zero-exit run, the returned ok-message sequence is
exactly the `[ok]`-classified stderr lines in observed order (so every
member has type `[ok]`), and the error message set is exactly the other
classified lines in observed order (so every non-`[ok]` classified line
is in it). -/
theorem C9_ok_partition (env : ExecBehavior)
    (h1 : env.stderrPipeErr = none) (h2 : env.stdoutPipeErr = none)
    (h3 : env.startErr = none) (h4 : env.waitErr = none) :
    ∃ r, Run env = .ok r ∧
      r.messages = (env.stderrLines.map NewDrushMessage).filter
        (fun m => m.Type' == DrushMessageOK) ∧
      (∀ m ∈ r.messages, m.Type' = DrushMessageOK) ∧
      runErrset env = (env.stderrLines.map NewDrushMessage).filter
        (fun m => !(m.Type' == DrushMessageOK)) ∧
      (∀ m ∈ env.stderrLines.map NewDrushMessage,
        m.Type' ≠ DrushMessageOK → m ∈ runErrset env) := by
  have hrun : Run env = .ok
      { output := env.stdoutData
        messages := (classifyStderr env.stderrLines).1
        errs := if DrushMessageSet.HasErrors (runErrset env) then some (runErrset env)
          else none } := by
    simp [Run, h1, h2, h3, runErrset]
  have hcs := classifyStderr_spec env.stderrLines
  refine ⟨_, hrun, ?_, ?_, ?_, ?_⟩
  · simp [hcs]
  · intro m hm
    simp only [hcs, List.mem_filter] at hm
    simpa using hm.2
  · simp [runErrset, h4, hcs]
  · intro m hm hne
    simp [runErrset, h4, hcs, List.mem_filter, hm, hne]

/-- C9 witness: the partition at a concrete run with one `[ok]` line, one
`[warning]` line and one unmarked line. -/
theorem C9_ok_partition_witness :
    mixedEnv.stderrPipeErr = none ∧ mixedEnv.stdoutPipeErr = none ∧
    mixedEnv.startErr = none ∧ mixedEnv.waitErr = none ∧
    (∃ r, Run mixedEnv = .ok r ∧
      r.messages = (mixedEnv.stderrLines.map NewDrushMessage).filter
        (fun m => m.Type' == DrushMessageOK) ∧
      (∀ m ∈ r.messages, m.Type' = DrushMessageOK) ∧
      runErrset mixedEnv = (mixedEnv.stderrLines.map NewDrushMessage).filter
        (fun m => !(m.Type' == DrushMessageOK)) ∧
      (∀ m ∈ mixedEnv.stderrLines.map NewDrushMessage,
        m.Type' ≠ DrushMessageOK → m ∈ runErrset mixedEnv)) :=
  ⟨rfl, rfl, rfl, rfl, C9_ok_partition mixedEnv rfl rfl rfl rfl⟩

/-- C10: `Database.Open` passes the driver named by the `Driver` field and
the data-source string built as username, then `":" ++ password` only when
the password is non-empty, then `"@" ++ host`, then `":" ++ port` only
when the port is non-empty, then `"/" ++ database`. -/
theorem C10_open_builds_dsn (db : GoDrupal.Database) :
    db.Open = (db.Driver,
      db.Username ++ (if db.Password = "" then "" else ":" ++ db.Password) ++ "@" ++
        db.Host ++ (if db.Port = "" then "" else ":" ++ db.Port) ++ "/" ++ db.Database) := by
  unfold Database.Open
  by_cases hp : db.Password = "" <;> by_cases hq : db.Port = "" <;>
    simp [hp, hq, String.append_assoc]

end GoDrupal
